import Mathlib

/-!
Shallow embedding of `src/WebDevelopment/Motel.js`.

The script builds one object `motelCustomer` holding literal guest data,
derives two values (`age()` and `durationOfStay()`), assembles a template
string `customerDescription`, writes it to the console and then to the DOM
element with id `customerInfo`.

JavaScript `Date` values built from ISO date-only strings ("1994-07-02")
denote the UTC midnight of that calendar day; a `Date` is a timestamp in
milliseconds since the Unix epoch.  We embed a `Date` as that timestamp
(an `Int`), and the component accessors `getFullYear` / `getMonth` /
`getDate` as extraction of the civil calendar date of the timestamp's day
(the spec fixes no timezone, so the host's local calendar is taken to be
UTC).  Months are modelled 1-based; the source subtracts two `getMonth`
values (0-based), and that difference is the same either way.
-/

/-- Milliseconds per day, from the source expression `1000 * 60 * 60 * 24`. -/
def msPerDay : Nat := 1000 * 60 * 60 * 24

/-- A civil calendar date: what `getFullYear` / `getMonth(+1)` / `getDate`
of a JS `Date` expose. -/
structure CivilDate where
  year : Int
  month : Nat
  day : Nat
  deriving DecidableEq, Repr

/-- Civil date of a day count from the epoch 1970-01-01 (proleptic
Gregorian calendar, the calendar JS `Date` uses). -/
def civilFromDays (z0 : Int) : CivilDate :=
  let z := z0 + 719468
  let era : Int := z.fdiv 146097
  let doe : Nat := (z - era * 146097).toNat
  let yoe : Nat := (doe - doe / 1460 + doe / 36524 - doe / 146096) / 365
  let y : Int := (yoe : Int) + era * 400
  let doy : Nat := doe - (365 * yoe + yoe / 4 - yoe / 100)
  let mp : Nat := (5 * doy + 2) / 153
  let d : Nat := doy - (153 * mp + 2) / 5 + 1
  let m : Nat := if mp < 10 then mp + 3 else mp - 9
  ⟨(if m ≤ 2 then y + 1 else y), m, d⟩

/-- Calendar date of a timestamp in milliseconds (floor to the day,
as JS `Date` component accessors do, also for negative timestamps). -/
def civilFromMs (t : Int) : CivilDate :=
  civilFromDays (t.fdiv (msPerDay : Int))

/-- Core of `motelCustomer.age` on calendar components:
`years = today.getFullYear() - birthDate.getFullYear()`,
`m = today.getMonth() - birthDate.getMonth()`, decrement when
`m < 0 || (m === 0 && today.getDate() < birthDate.getDate())`. -/
def ageOnDates (today bd : CivilDate) : Int :=
  let years : Int := today.year - bd.year
  let m : Int := (today.month : Int) - (bd.month : Int)
  if m < 0 ∨ (m = 0 ∧ today.day < bd.day) then years - 1 else years

/-- `motelCustomer.age`: `new Date()` is the current instant `nowMs`;
all accessors read the calendar date of their timestamp. -/
def ageFromInstants (nowMs birthMs : Int) : Int :=
  ageOnDates (civilFromMs nowMs) (civilFromMs birthMs)

/-- `motelCustomer.durationOfStay`:
`diffTime = Math.abs(checkOutDate.getTime() - checkInDate.getTime())`,
result `Math.ceil(diffTime / msPerDay)` (ceiling division on a
non-negative integer numerator). -/
def durationOfStay (checkInMs checkOutMs : Int) : Int :=
  let diffTime : Nat := (checkOutMs - checkInMs).natAbs
  ((diffTime + (msPerDay - 1)) / msPerDay : Nat)

/-- The nested `mailingAddress` object. -/
structure MailingAddress where
  street : String
  city : String
  postalCode : String
  deriving DecidableEq, Repr

/-- `mailingAddress.toString`: renders
`` `${this.street}, ${this.city}, ${this.postalCode}` ``. -/
def MailingAddress.render (a : MailingAddress) : String :=
  a.street ++ ", " ++ a.city ++ ", " ++ a.postalCode

/-- The guest record: the fields of the `motelCustomer` object literal.
The three dates are stored as the timestamps their `new Date(...)`
constructions denote. -/
structure GuestRecord where
  name : String
  birthDateMs : Int
  gender : String
  roomPreferences : List String
  paymentMethod : String
  mailingAddress : MailingAddress
  phoneNumber : String
  checkInMs : Int
  checkOutMs : Int
  deriving DecidableEq, Repr

/-- The literal `motelCustomer` object.
`new Date("1994-07-02")` = 773107200000 ms,
`new Date("2024-04-01")` = 1711929600000 ms,
`new Date("2024-04-15")` = 1713139200000 ms. -/
def motelCustomer : GuestRecord :=
  { name := "Steven Norris"
    birthDateMs := 773107200000
    gender := "Male"
    roomPreferences := ["Double Bed", "Pet-Friendly Status"]
    paymentMethod := "Pennies"
    mailingAddress :=
      { street := "123 Duck St"
        city := "St. John's"
        postalCode := "A5A 1A3" }
    phoneNumber := "709-987-6543"
    checkInMs := 1711929600000
    checkOutMs := 1713139200000 }

/-- `customerDescription`: the template literal of lines 57–65, fields
substituted positionally.  `nowMs` is the instant `age()` reads;
`renderIn` and `renderOut` stand for the locale-dependent strings
`toLocaleDateString()` produces for the two stay dates. -/
def customerDescription (g : GuestRecord) (nowMs : Int)
    (renderIn renderOut : String) : String :=
  "Hello! I'm " ++ g.name ++ ", a " ++
    toString (ageFromInstants nowMs g.birthDateMs) ++ " year old " ++
    g.gender ++ " who prefers rooms with " ++
    String.intercalate " and " g.roomPreferences ++
    ". You can reach me at " ++ g.phoneNumber ++
    ". My mailing address is " ++ g.mailingAddress.render ++
    ". I'll be staying from " ++ renderIn ++ " to " ++ renderOut ++
    ", which is a duration of " ++
    toString (durationOfStay g.checkInMs g.checkOutMs) ++ " days."

/-- Modelled from the spec: the age algorithm as the spec words it —
`years = today.year - birthDate.year`, decremented by one exactly when
`(today.month, today.day)` is lexicographically earlier than
`(birthDate.month, birthDate.day)`.  Stated for comparison with
`ageOnDates`, which is translated from the source. -/
def ageSpecLex (today bd : CivilDate) : Int :=
  (today.year - bd.year) -
    (if today.month < bd.month ∨ (today.month = bd.month ∧ today.day < bd.day)
     then 1 else 0)

/-- Gregorian leap-year rule (ambient calendar fact, used to phrase the
"birthday is tomorrow" case). -/
def isLeapYear (y : Int) : Bool :=
  y % 4 == 0 && (y % 100 != 0 || y % 400 == 0)

/-- Number of days in a month of the Gregorian calendar. -/
def daysInMonth (y : Int) (m : Nat) : Nat :=
  if m = 2 then (if isLeapYear y then 29 else 28)
  else if m = 4 ∨ m = 6 ∨ m = 9 ∨ m = 11 then 30
  else 31

/-- The calendar day after a given day. -/
def nextDay (t : CivilDate) : CivilDate :=
  if t.day < daysInMonth t.year t.month then ⟨t.year, t.month, t.day + 1⟩
  else if t.month < 12 then ⟨t.year, t.month + 1, 1⟩
  else ⟨t.year + 1, 1, 1⟩

/-- Strict chronological order on civil dates (year, then month, then day). -/
def dateEarlier (a b : CivilDate) : Prop :=
  a.year < b.year ∨
    (a.year = b.year ∧ (a.month < b.month ∨ (a.month = b.month ∧ a.day < b.day)))

instance (a b : CivilDate) : Decidable (dateEarlier a b) := by
  unfold dateEarlier; infer_instance

/-- An observable output effect of the script: a console write or a DOM
text-content assignment. -/
inductive Effect where
  | consoleWrite : String → Effect
  | domWrite : String → String → Effect
  deriving DecidableEq, Repr

/-- Lines 67–71 of the source: `console.log(customerDescription)` and then
`document.getElementById("customerInfo").textContent = customerDescription`.
`hasElem` says whether an element with id `customerInfo` exists; when it
does not, `getElementById` yields `null` and the assignment throws, so the
script ends with only the console write performed (flag `false`). -/
def runScript (g : GuestRecord) (nowMs : Int) (rIn rOut : String)
    (hasElem : Bool) : List Effect × Bool :=
  let desc := customerDescription g nowMs rIn rOut
  let afterLog : List Effect := [Effect.consoleWrite desc]
  if hasElem then (afterLog ++ [Effect.domWrite "customerInfo" desc], true)
  else (afterLog, false)

/-- `age()` as a state-passing operation: it reads the record and returns
it unchanged together with the computed age (the method body contains no
assignment to any field). -/
def ageOp (nowMs : Int) (g : GuestRecord) : GuestRecord × Int :=
  (g, ageFromInstants nowMs g.birthDateMs)

/-- `durationOfStay()` as a state-passing operation. -/
def durationOp (g : GuestRecord) : GuestRecord × Int :=
  (g, durationOfStay g.checkInMs g.checkOutMs)

/-- The description assembly as a state-passing operation. -/
def descriptionOp (nowMs : Int) (rIn rOut : String) (g : GuestRecord) :
    GuestRecord × String :=
  (g, customerDescription g nowMs rIn rOut)

/-- The two output steps as a state-passing operation. -/
def outputOp (nowMs : Int) (rIn rOut : String) (hasElem : Bool)
    (g : GuestRecord) : GuestRecord × List Effect × Bool :=
  (g, runScript g nowMs rIn rOut hasElem)

/-! ### Helper lemmas -/

theorem s_data_app (a b : String) : (a ++ b).data = a.data ++ b.data := rfl

theorem suffix_lift (a b : String) (p : List Char) (h : p <:+ b.data) :
    p <:+ (a ++ b).data := by
  rcases h with ⟨t, ht⟩
  exact ⟨a.data ++ t, by rw [List.append_assoc, ht, ← s_data_app]⟩

theorem suffix_split (a b : String) (p p1 : List Char)
    (hs : p = p1 ++ b.data) (h1 : p1 <:+ a.data) : p <:+ (a ++ b).data := by
  rcases h1 with ⟨t, ht⟩
  refine ⟨t, ?_⟩
  rw [hs, ← List.append_assoc, ht, ← s_data_app]

theorem inf_lift_right (a b : String) (p : List Char) (h : p <:+: a.data) :
    p <:+: (a ++ b).data := by
  rcases h with ⟨s, t, hst⟩
  refine ⟨s, t ++ b.data, ?_⟩
  rw [s_data_app, ← hst]
  simp [List.append_assoc]

theorem ceil_div_nat (d p : Nat) (hp : 0 < p) :
    (((d + (p - 1)) / p : Nat) : Int) = ⌈(d : ℚ) / (p : ℚ)⌉ := by
  have h1 := Nat.div_add_mod (d + (p - 1)) p
  have h2 := Nat.mod_lt (d + (p - 1)) hp
  set n : Nat := (d + (p - 1)) / p with hn
  have hq1 : d ≤ p * n := by omega
  have hq2 : p * n < d + p := by omega
  have hpQ : (0 : ℚ) < (p : ℚ) := by exact_mod_cast hp
  have hq1Q : (d : ℚ) ≤ (p : ℚ) * (n : ℚ) := by exact_mod_cast hq1
  have hq2Q : (p : ℚ) * (n : ℚ) < (d : ℚ) + (p : ℚ) := by exact_mod_cast hq2
  symm
  rw [Int.ceil_eq_iff]
  constructor
  · rw [lt_div_iff₀ hpQ]
    push_cast
    nlinarith [hq2Q]
  · rw [div_le_iff₀ hpQ]
    push_cast
    nlinarith [hq1Q]

/-! ### Claims -/

/-- C1: `age()` computes the guest's age in whole years by the stated
algorithm — `years = today.year - birthDate.year`, decremented by one
exactly when `(today.month, today.day)` is lexicographically earlier than
`(birthDate.month, birthDate.day)`; consequently a birth date exactly `N`
years before today (same month and day) gives `N`, and a birth date whose
anniversary is tomorrow gives `N - 1`. -/
theorem age_matches_spec_and_anniversary_cases :
    (∀ today bd : CivilDate, ageOnDates today bd = ageSpecLex today bd) ∧
    (∀ (today bd : CivilDate) (n : Nat),
      bd.month = today.month → bd.day = today.day →
      bd.year = today.year - (n : Int) →
      ageOnDates today bd = (n : Int)) ∧
    (∀ (today bd : CivilDate) (n : Nat),
      (nextDay today).month = bd.month → (nextDay today).day = bd.day →
      bd.year = (nextDay today).year - (n : Int) →
      ageOnDates today bd = (n : Int) - 1) := by
  refine ⟨?_, ?_, ?_⟩
  · intro t b
    simp only [ageOnDates, ageSpecLex]
    split_ifs <;> omega
  · intro t b n h1 h2 h3
    simp only [ageOnDates]
    rw [h1, h2, h3]
    split_ifs <;> omega
  · intro t b n h1 h2 h3
    simp only [nextDay] at h1 h2 h3
    simp only [ageOnDates]
    split_ifs at h1 h2 h3 with hc1 hc2 <;>
      simp only [] at h1 h2 h3 <;> split_ifs <;> omega

theorem age_matches_spec_and_anniversary_cases_witness :
    ageOnDates ⟨2025, 7, 2⟩ ⟨1994, 7, 2⟩ = ((31 : Nat) : Int) ∧
    ageOnDates ⟨2025, 7, 1⟩ ⟨1994, 7, 2⟩ = ((31 : Nat) : Int) - 1 :=
  ⟨age_matches_spec_and_anniversary_cases.2.1 ⟨2025, 7, 2⟩ ⟨1994, 7, 2⟩ 31
      (by decide) (by decide) (by decide),
   age_matches_spec_and_anniversary_cases.2.2 ⟨2025, 7, 1⟩ ⟨1994, 7, 2⟩ 31
      (by decide) (by decide) (by decide)⟩

/-- C2: `durationOfStay()` returns
`ceiling(abs(checkOutDate - checkInDate) in ms / ms-per-day)`;
for the stored pair 2024-04-01 / 2024-04-15 it returns 14, and for every
pair of equal dates it returns 0. -/
theorem durationOfStay_is_ceiling_div :
    (∀ a b : Int,
      durationOfStay a b = ⌈(((b - a).natAbs : ℚ)) / ((msPerDay : Nat) : ℚ)⌉) ∧
    durationOfStay motelCustomer.checkInMs motelCustomer.checkOutMs = 14 ∧
    (∀ a : Int, durationOfStay a a = 0) := by
  refine ⟨?_, by decide, ?_⟩
  · intro a b
    show ((((b - a).natAbs + (msPerDay - 1)) / msPerDay : Nat) : Int) = _
    exact ceil_div_nat ((b - a).natAbs) msPerDay (by decide)
  · intro a
    show ((((a - a).natAbs + (msPerDay - 1)) / msPerDay : Nat) : Int) = 0
    rw [sub_self]
    decide

/-- C3: the description assembly produces exactly the stated template with
fields substituted positionally and `roomPreferences` joined with `" and "`;
for the literal guest record with a fixed "today" of 2025-01-01, the
assembled description contains the substring
`"a 30 year old Male who prefers rooms with Double Bed and Pet-Friendly Status"`
and ends with `"duration of 14 days."` (for any locale rendering of the
two stay dates). -/
theorem customerDescription_template_and_contents :
    (∀ (g : GuestRecord) (nowMs : Int) (rIn rOut : String),
      customerDescription g nowMs rIn rOut =
        "Hello! I'm " ++ g.name ++ ", a " ++
        toString (ageFromInstants nowMs g.birthDateMs) ++ " year old " ++
        g.gender ++ " who prefers rooms with " ++
        String.intercalate " and " g.roomPreferences ++
        ". You can reach me at " ++ g.phoneNumber ++
        ". My mailing address is " ++ g.mailingAddress.render ++
        ". I'll be staying from " ++ rIn ++ " to " ++ rOut ++
        ", which is a duration of " ++
        toString (durationOfStay g.checkInMs g.checkOutMs) ++ " days.") ∧
    (∀ nowMs : Int, civilFromMs nowMs = ⟨2025, 1, 1⟩ →
      ∀ rIn rOut : String,
        ("a 30 year old Male who prefers rooms with Double Bed and Pet-Friendly Status").data
          <:+: (customerDescription motelCustomer nowMs rIn rOut).data ∧
        ("duration of 14 days.").data
          <:+ (customerDescription motelCustomer nowMs rIn rOut).data) := by
  refine ⟨fun g nowMs rIn rOut => rfl, ?_⟩
  intro nowMs h rIn rOut
  have hage : ageFromInstants nowMs motelCustomer.birthDateMs = 30 := by
    show ageOnDates (civilFromMs nowMs) (civilFromMs 773107200000) = 30
    rw [h]
    decide
  have hd : customerDescription motelCustomer nowMs rIn rOut =
      "Hello! I'm " ++ "Steven Norris" ++ ", a " ++ "30" ++ " year old " ++
      "Male" ++ " who prefers rooms with " ++
      "Double Bed and Pet-Friendly Status" ++
      ". You can reach me at " ++ "709-987-6543" ++
      ". My mailing address is " ++
      ("123 Duck St" ++ ", " ++ "St. John's" ++ ", " ++ "A5A 1A3") ++
      ". I'll be staying from " ++ rIn ++ " to " ++ rOut ++
      ", which is a duration of " ++ "14" ++ " days." := by
    unfold customerDescription
    rw [hage]
    rfl
  constructor
  · rw [hd]
    iterate 11 apply inf_lift_right
    exact ⟨("Hello! I'm Steven Norris, ").data, [], by decide⟩
  · rw [hd]
    exact suffix_split _ _ _ (("duration of 14").data) (by decide)
      (suffix_split _ _ _ (("duration of ").data) (by decide)
        (suffix_lift _ _ _ ⟨(", which is a ").data, by decide⟩))

theorem customerDescription_template_and_contents_witness :
    ("a 30 year old Male who prefers rooms with Double Bed and Pet-Friendly Status").data
      <:+: (customerDescription motelCustomer 1735689600000 "4/1/2024" "4/15/2024").data ∧
    ("duration of 14 days.").data
      <:+ (customerDescription motelCustomer 1735689600000 "4/1/2024" "4/15/2024").data :=
  customerDescription_template_and_contents.2 1735689600000 (by decide)
    "4/1/2024" "4/15/2024"

/-- C4: `durationOfStay()` is symmetric — swapping the two dates yields the
same result. -/
theorem durationOfStay_symm :
    ∀ a b : Int, durationOfStay a b = durationOfStay b a := by
  intro a b
  show ((((b - a).natAbs + (msPerDay - 1)) / msPerDay : Nat) : Int) =
       ((((a - b).natAbs + (msPerDay - 1)) / msPerDay : Nat) : Int)
  rw [← Int.natAbs_neg (b - a), neg_sub]

/-- C5: `durationOfStay()` never reports an invalid range: for every pair
of dates (also when checkout precedes check-in) it succeeds and returns a
non-negative day count. -/
theorem durationOfStay_nonneg_total :
    ∀ a b : Int, 0 ≤ durationOfStay a b := by
  intro a b
  show (0 : Int) ≤ (((b - a).natAbs + (msPerDay - 1)) / msPerDay : Nat)
  exact Int.natCast_nonneg _

/-- C6: the mailing-address formatter renders the three fields as
`"{street}, {city}, {postalCode}"`; on the record's literal address it
returns exactly `"123 Duck St, St. John's, A5A 1A3"`. -/
theorem mailingAddress_render_spec :
    (∀ a : MailingAddress,
      a.render = a.street ++ ", " ++ a.city ++ ", " ++ a.postalCode) ∧
    MailingAddress.render ⟨"123 Duck St", "St. John's", "A5A 1A3"⟩ =
      "123 Duck St, St. John's, A5A 1A3" ∧
    motelCustomer.mailingAddress.render = "123 Duck St, St. John's, A5A 1A3" :=
  ⟨fun _ => rfl, by decide, by decide⟩

/-- C7: `age()` is invariant under time-of-day: two "now" instants with the
same calendar date give the same age. -/
theorem age_time_of_day_invariant :
    ∀ t1 t2 birthMs : Int, civilFromMs t1 = civilFromMs t2 →
      ageFromInstants t1 birthMs = ageFromInstants t2 birthMs := by
  intro t1 t2 b h
  unfold ageFromInstants
  rw [h]

theorem age_time_of_day_invariant_witness :
    civilFromMs 0 = civilFromMs 3600000 ∧
    ageFromInstants 0 773107200000 = ageFromInstants 3600000 773107200000 :=
  ⟨by decide, age_time_of_day_invariant 0 3600000 773107200000 (by decide)⟩

/-- C8: the guest record is immutable: `age()`, `durationOfStay()`, the
description assembly and the output steps all return the record unchanged. -/
theorem operations_preserve_record :
    ∀ (g : GuestRecord) (nowMs : Int) (rIn rOut : String) (hasElem : Bool),
      (ageOp nowMs g).1 = g ∧ (durationOp g).1 = g ∧
      (descriptionOp nowMs rIn rOut g).1 = g ∧
      (outputOp nowMs rIn rOut hasElem g).1 = g :=
  fun _ _ _ _ _ => ⟨rfl, rfl, rfl, rfl⟩

/-- C9: the console write precedes the display-surface lookup: it is the
first effect in every run, and even when no `customerInfo` element exists
(the aborting run, flag `false`) the console write has been performed. -/
theorem console_write_precedes_dom_write :
    ∀ (g : GuestRecord) (nowMs : Int) (rIn rOut : String) (hasElem : Bool),
      (runScript g nowMs rIn rOut hasElem).1.head? =
        some (Effect.consoleWrite (customerDescription g nowMs rIn rOut)) ∧
      (runScript g nowMs rIn rOut false).1 =
        [Effect.consoleWrite (customerDescription g nowMs rIn rOut)] ∧
      (runScript g nowMs rIn rOut false).2 = false := by
  intro g nowMs rIn rOut hasElem
  cases hasElem <;> exact ⟨rfl, rfl, rfl⟩

/-- C10: `age()` does not clamp: for a birth date strictly later than the
current date it returns a negative integer. -/
theorem age_unclamped_negative_for_future_birth :
    ∀ today bd : CivilDate, dateEarlier today bd → ageOnDates today bd < 0 := by
  intro t b h
  unfold dateEarlier at h
  simp only [ageOnDates]
  split_ifs <;> omega

theorem age_unclamped_negative_for_future_birth_witness :
    ageOnDates ⟨2025, 1, 1⟩ ⟨2026, 5, 5⟩ < 0 :=
  age_unclamped_negative_for_future_birth ⟨2025, 1, 1⟩ ⟨2026, 5, 5⟩ (by decide)
